import Mathlib

/-!
Verification of the checkpoint-based outcome-tracking engine
(src/database.py, src/check_outcomes.py).

Shallow embedding conventions:
- SQLite REAL columns are modelled as `Option ℚ` (NULL = `none`); INTEGER
  flag columns as `Option ℤ`; timestamps as `ℤ`.
- Python's `x or y` on a float is `qOr`; on an optional float it is `optOr`
  (both `None` and `0.0` are falsy in Python).
- The SQLite table is a `List TokenRecord`; a SQL UPDATE of one row is a
  pure function on a `TokenRecord`; a SELECT with a WHERE clause is a
  `List.filter`; `raise ValueError` is `Except.error`.
-/

set_option linter.unusedVariables false

namespace Snapshots

/-- Python `x or y` for a float `x`: `0.0` is falsy, everything else truthy. -/
def qOr (x y : ℚ) : ℚ := if x = 0 then y else x

/-- Python `x or y` for an optional float `x`: `None` and `0.0` are falsy. -/
def optOr (x : Option ℚ) (y : ℚ) : ℚ :=
  match x with
  | none => y
  | some v => qOr v y

/-- Python truthiness of a nullable INTEGER column (`None` and `0` falsy). -/
def truthyInt (x : Option ℤ) : Bool :=
  match x with
  | none => false
  | some v => v != 0

/-- The per-checkpoint raw sample tuple: the seven `{col}_{checkpoint}`
columns of `token_snapshots` for one checkpoint. -/
structure CpData where
  mc : Option ℚ
  ath : Option ℚ
  holders : Option ℤ
  liquidity : Option ℚ
  price : Option ℚ
  buys : Option ℤ
  sells : Option ℤ
deriving DecidableEq, Repr

/-- A checkpoint tuple that is entirely NULL (state at record creation). -/
def emptyCpData : CpData :=
  { mc := none, ath := none, holders := none, liquidity := none,
    price := none, buys := none, sells := none }

/-- One row of the `token_snapshots` table, restricted to the columns the
core engine reads or writes. -/
structure TokenRecord where
  contract_address : String
  first_detected_at : ℤ
  api_mc_usd : Option ℚ
  ath_market_cap : Option ℚ
  ath_ratio_col : Option ℚ
  excluded_from_analysis : ℤ
  day_of_week : Option ℤ
  cp_5min : CpData
  cp_20min : CpData
  cp_1h : CpData
  cp_3h : CpData
  cp_6h : CpData
  cp_24h : CpData
  cp_7d : CpData
  current_ath_usd : Option ℚ
  true_multiple : Option ℚ
  reached_x2 : Option ℤ
  reached_x3 : Option ℤ
  reached_x5 : Option ℤ
  reached_x10 : Option ℤ
  reached_x20 : Option ℤ
  reached_x50 : Option ℤ
  reached_x100 : Option ℤ
deriving DecidableEq, Repr

/-- Checkpoint name → delay in seconds (`CHECKPOINTS` in src/database.py). -/
def CHECKPOINTS : List (String × ℤ) :=
  [("5min", 5 * 60), ("20min", 20 * 60), ("1h", 60 * 60), ("3h", 3 * 60 * 60),
   ("6h", 6 * 60 * 60), ("24h", 24 * 60 * 60), ("7d", 7 * 24 * 60 * 60)]

/-- Errors raised by the database layer (`raise ValueError(...)`). -/
inductive DbError where
  | invalidCheckpoint (name : String)
deriving DecidableEq, Repr

/-- Select the `{col}_{checkpoint}` tuple of a row by checkpoint name
(the f-string column selection `mc_col = f"mc_{checkpoint}"` etc.). -/
def cpDataOf (r : TokenRecord) (cp : String) : CpData :=
  if cp = "5min" then r.cp_5min
  else if cp = "20min" then r.cp_20min
  else if cp = "1h" then r.cp_1h
  else if cp = "3h" then r.cp_3h
  else if cp = "6h" then r.cp_6h
  else if cp = "24h" then r.cp_24h
  else if cp = "7d" then r.cp_7d
  else emptyCpData

/-- Write the `{col}_{checkpoint}` tuple of a row by checkpoint name. -/
def writeCp (r : TokenRecord) (cp : String) (d : CpData) : TokenRecord :=
  if cp = "5min" then { r with cp_5min := d }
  else if cp = "20min" then { r with cp_20min := d }
  else if cp = "1h" then { r with cp_1h := d }
  else if cp = "3h" then { r with cp_3h := d }
  else if cp = "6h" then { r with cp_6h := d }
  else if cp = "24h" then { r with cp_24h := d }
  else if cp = "7d" then { r with cp_7d := d }
  else r

/-- The argument bundle of one `update_token_checkpoint` call (everything
after `contract_address` and `checkpoint`). Parameters with default `None`
are `Option`; `current_mc` is a plain float. -/
structure Snapshot where
  current_mc : ℚ
  current_ath : Option ℚ
  mc_at_call : Option ℚ
  holders : Option ℤ
  liquidity_usd : Option ℚ
  price_usd : Option ℚ
  txns_buys : Option ℤ
  txns_sells : Option ℤ
deriving DecidableEq, Repr

/-- `initial_mc = row['api_mc_usd'] or mc_at_call or 0` (src/database.py:454). -/
def initial_mc (r : TokenRecord) (s : Snapshot) : ℚ :=
  optOr r.api_mc_usd (optOr s.mc_at_call 0)

/-- `ath_at_call = row['ath_market_cap'] or 0` (src/database.py:455). -/
def ath_at_call (r : TokenRecord) : ℚ :=
  optOr r.ath_market_cap 0

/-- `prev_ath = row['current_ath_usd'] or ath_at_call or 0` (src/database.py:456). -/
def prev_ath (r : TokenRecord) : ℚ :=
  qOr (optOr r.current_ath_usd (ath_at_call r)) 0

/-- `prev_multiple = row['true_multiple'] or 0` (src/database.py:457). -/
def prev_multiple (r : TokenRecord) : ℚ :=
  optOr r.true_multiple 0

/-- `best_ath = max(prev_ath, current_ath or 0, current_mc or 0)`
(src/database.py:460). -/
def best_ath (r : TokenRecord) (s : Snapshot) : ℚ :=
  max (prev_ath r) (max (optOr s.current_ath 0) (qOr s.current_mc 0))

/-- `true_multiple = best_ath / initial_mc if initial_mc > 0 else 0`
followed by `true_multiple = max(true_multiple, prev_multiple)`
(src/database.py:463-466). -/
def newTrueMultiple (r : TokenRecord) (s : Snapshot) : ℚ :=
  max (if 0 < initial_mc r s then best_ath r s / initial_mc r s else 0)
      (prev_multiple r)

/-- The UPDATE statement of `update_token_checkpoint` (src/database.py:442-515):
write this checkpoint's raw tuple, the new running best ATH, the new true
multiple, and the OR-accumulated threshold flags. -/
def updCore (r : TokenRecord) (cp : String) (s : Snapshot) : TokenRecord :=
  let tm := newTrueMultiple r s
  let r1 := writeCp r cp
    { mc := some s.current_mc, ath := s.current_ath, holders := s.holders,
      liquidity := s.liquidity_usd, price := s.price_usd,
      buys := s.txns_buys, sells := s.txns_sells }
  { r1 with
    current_ath_usd := some (best_ath r s)
    true_multiple := some tm
    reached_x2 := some (if truthyInt r.reached_x2 = true ∨ 2 ≤ tm then 1 else 0)
    reached_x3 := some (if truthyInt r.reached_x3 = true ∨ 3 ≤ tm then 1 else 0)
    reached_x5 := some (if truthyInt r.reached_x5 = true ∨ 5 ≤ tm then 1 else 0)
    reached_x10 := some (if truthyInt r.reached_x10 = true ∨ 10 ≤ tm then 1 else 0)
    reached_x20 := some (if truthyInt r.reached_x20 = true ∨ 20 ≤ tm then 1 else 0)
    reached_x50 := some (if truthyInt r.reached_x50 = true ∨ 50 ≤ tm then 1 else 0)
    reached_x100 := some (if truthyInt r.reached_x100 = true ∨ 100 ≤ tm then 1 else 0) }

/-- `update_token_checkpoint` (src/database.py:410-538), acting on the row
for the given address: validates the checkpoint name, then performs the
read-compute-update cycle `updCore`. -/
def update_token_checkpoint (r : TokenRecord) (cp : String) (s : Snapshot) :
    Except DbError TokenRecord :=
  match CHECKPOINTS.lookup cp with
  | none => .error (.invalidCheckpoint cp)
  | some _ => .ok (updCore r cp s)

/-- The WHERE clause of the scheduler query (src/database.py:397-403):
`{mc_col} IS NULL AND first_detected_at < cutoff` with `cutoff = now - d`. -/
def isDue (now : ℤ) (cp : String) (d : ℤ) (r : TokenRecord) : Bool :=
  decide ((cpDataOf r cp).mc = none) && decide (r.first_detected_at < now - d)

/-- `get_tokens_for_checkpoint` (src/database.py:379-407): invalid name
raises; otherwise select every row whose checkpoint column is NULL and
which was detected strictly before `now - delay`. -/
def get_tokens_for_checkpoint (tbl : List TokenRecord) (now : ℤ) (cp : String) :
    Except DbError (List TokenRecord) :=
  match CHECKPOINTS.lookup cp with
  | none => .error (.invalidCheckpoint cp)
  | some d => .ok (tbl.filter (isDue now cp d))

/-- The exclusion-classifier fragment of `insert_snapshot`
(src/database.py:338-346): returns the `excluded_from_analysis` flag and
the stored `ath_ratio` (`none` when the ratio branch is not taken). -/
def insert_exclusion (api_mc_usd ath_market_cap : Option ℚ) : ℤ × Option ℚ :=
  let api_mc := optOr api_mc_usd 0
  let ath_mc := optOr ath_market_cap 0
  if 0 < ath_mc then
    let quality := api_mc / ath_mc
    ((if quality < 1/2 then 1 else 0), some quality)
  else
    (1, none)

/-- The result shape of `fetch_token_data` (src/check_outcomes.py:54-119):
`current_mc` and `current_ath` default to `0`, the rest to `None`. -/
structure FetchResult where
  current_mc : ℚ
  current_ath : ℚ
  holders : Option ℤ
  liquidity_usd : Option ℚ
  price_usd : Option ℚ
  txns_buys : Option ℤ
  txns_sells : Option ℤ
deriving DecidableEq, Repr

/-- `check_token` (src/check_outcomes.py:122-181) restricted to its
database effect: compute `mc_at_call = token.get("api_mc_usd", 0) or 0`,
skip the record entirely (`return None`) when it is falsy or `<= 0`,
otherwise call `update_token_checkpoint` with the fetched data.
`.ok none` = record skipped, `.ok (some r')` = row updated to `r'`. -/
def check_token (r : TokenRecord) (cp : String) (data : FetchResult) :
    Except DbError (Option TokenRecord) :=
  let mc_at_call := optOr r.api_mc_usd 0
  if mc_at_call = 0 ∨ mc_at_call ≤ 0 then .ok none
  else
    match update_token_checkpoint r cp
      { current_mc := data.current_mc, current_ath := some data.current_ath,
        mc_at_call := some mc_at_call, holders := data.holders,
        liquidity_usd := data.liquidity_usd, price_usd := data.price_usd,
        txns_buys := data.txns_buys, txns_sells := data.txns_sells } with
    | .ok r' => .ok (some r')
    | .error e => .error e

/-- The state of the record after a `check_token` attempt: unchanged when
the record was skipped or the call errored, else the updated row. -/
def afterCheck (r : TokenRecord) (cp : String) (data : FetchResult) : TokenRecord :=
  match check_token r cp data with
  | .ok (some r') => r'
  | _ => r

/-- One recorder call as the database sees it: a successful
`update_token_checkpoint` replaces the row, a raised error leaves it. -/
def applyD (r : TokenRecord) (c : String × Snapshot) : TokenRecord :=
  match update_token_checkpoint r c.1 c.2 with
  | .ok r' => r'
  | .error _ => r

/-- A sequence of recorder calls on one record. -/
def runCalls (r : TokenRecord) (calls : List (String × Snapshot)) : TokenRecord :=
  calls.foldl applyD r

/-- The row of `get_global_stats` (src/database.py:720-740). -/
structure GlobalStats where
  total_tokens : ℕ
  checked_tokens : ℕ
  excluded_tokens : ℕ
  total_x2 : ℕ
  total_x5 : ℕ
  total_x10 : ℕ
  included_tokens : ℕ
deriving DecidableEq, Repr

/-- `get_global_stats` (src/database.py:720-740): each SUM(CASE WHEN ...)
becomes a `countP` with the same condition. -/
def get_global_stats (tbl : List TokenRecord) : GlobalStats where
  total_tokens := tbl.length
  checked_tokens := tbl.countP (fun r => r.cp_7d.mc.isSome)
  excluded_tokens := tbl.countP (fun r =>
    decide (r.excluded_from_analysis = 1) && r.cp_7d.mc.isSome)
  total_x2 := tbl.countP (fun r =>
    decide (r.reached_x2 = some 1) && decide (r.excluded_from_analysis = 0))
  total_x5 := tbl.countP (fun r =>
    decide (r.reached_x5 = some 1) && decide (r.excluded_from_analysis = 0))
  total_x10 := tbl.countP (fun r =>
    decide (r.reached_x10 = some 1) && decide (r.excluded_from_analysis = 0))
  included_tokens := tbl.countP (fun r =>
    r.cp_7d.mc.isSome && decide (r.excluded_from_analysis = 0))

/-- The `total` column of `get_stats_by_day_of_week` (src/database.py:582-602)
for one day: rows with `mc_7d IS NOT NULL AND excluded_from_analysis = 0
AND day_of_week IS NOT NULL`, grouped by day. -/
def dayTotal (tbl : List TokenRecord) (d : ℤ) : ℕ :=
  tbl.countP (fun r =>
    r.cp_7d.mc.isSome && decide (r.excluded_from_analysis = 0) &&
    decide (r.day_of_week = some d))

/-- The `x2_count` column of `get_stats_by_day_of_week` for one day. -/
def dayX2 (tbl : List TokenRecord) (d : ℤ) : ℕ :=
  tbl.countP (fun r =>
    r.cp_7d.mc.isSome && decide (r.excluded_from_analysis = 0) &&
    decide (r.day_of_week = some d) && decide (r.reached_x2 = some 1))

/-- The win rate print_report derives for a day-of-week group
(src/check_outcomes.py:277: `x2_count / total * 100 if total > 0 else 0`). -/
def dayWinrate (tbl : List TokenRecord) (d : ℤ) : ℚ :=
  if 0 < dayTotal tbl d then (dayX2 tbl d : ℚ) / (dayTotal tbl d : ℚ) * 100 else 0

/-- A fully-NULL freshly shaped row used to build concrete test records. -/
def sampleRecord : TokenRecord where
  contract_address := "addr0"
  first_detected_at := 0
  api_mc_usd := none
  ath_market_cap := none
  ath_ratio_col := none
  excluded_from_analysis := 0
  day_of_week := none
  cp_5min := emptyCpData
  cp_20min := emptyCpData
  cp_1h := emptyCpData
  cp_3h := emptyCpData
  cp_6h := emptyCpData
  cp_24h := emptyCpData
  cp_7d := emptyCpData
  current_ath_usd := none
  true_multiple := none
  reached_x2 := none
  reached_x3 := none
  reached_x5 := none
  reached_x10 := none
  reached_x20 := none
  reached_x50 := none
  reached_x100 := none


/-! ### Helper lemmas -/

theorem qOr_zero_right (x : ℚ) : qOr x 0 = x := by
  unfold qOr
  split_ifs with h
  · exact h.symm
  · rfl

theorem writeCp_api_mc_usd (r : TokenRecord) (cp : String) (d : CpData) :
    (writeCp r cp d).api_mc_usd = r.api_mc_usd := by
  unfold writeCp
  split_ifs <;> rfl

theorem writeCp_ath_market_cap (r : TokenRecord) (cp : String) (d : CpData) :
    (writeCp r cp d).ath_market_cap = r.ath_market_cap := by
  unfold writeCp
  split_ifs <;> rfl

theorem writeCp_excluded (r : TokenRecord) (cp : String) (d : CpData) :
    (writeCp r cp d).excluded_from_analysis = r.excluded_from_analysis := by
  unfold writeCp
  split_ifs <;> rfl

theorem writeCp_ratio (r : TokenRecord) (cp : String) (d : CpData) :
    (writeCp r cp d).ath_ratio_col = r.ath_ratio_col := by
  unfold writeCp
  split_ifs <;> rfl

theorem writeCp_first_detected (r : TokenRecord) (cp : String) (d : CpData) :
    (writeCp r cp d).first_detected_at = r.first_detected_at := by
  unfold writeCp
  split_ifs <;> rfl

theorem writeCp_address (r : TokenRecord) (cp : String) (d : CpData) :
    (writeCp r cp d).contract_address = r.contract_address := by
  unfold writeCp
  split_ifs <;> rfl

theorem writeCp_day (r : TokenRecord) (cp : String) (d : CpData) :
    (writeCp r cp d).day_of_week = r.day_of_week := by
  unfold writeCp
  split_ifs <;> rfl

theorem updCore_current_ath (r : TokenRecord) (cp : String) (s : Snapshot) :
    (updCore r cp s).current_ath_usd = some (best_ath r s) := rfl

theorem updCore_true_multiple (r : TokenRecord) (cp : String) (s : Snapshot) :
    (updCore r cp s).true_multiple = some (newTrueMultiple r s) := rfl

theorem updCore_excluded (r : TokenRecord) (cp : String) (s : Snapshot) :
    (updCore r cp s).excluded_from_analysis = r.excluded_from_analysis := by
  unfold updCore
  exact writeCp_excluded ..

theorem updCore_ratio (r : TokenRecord) (cp : String) (s : Snapshot) :
    (updCore r cp s).ath_ratio_col = r.ath_ratio_col := by
  unfold updCore
  exact writeCp_ratio ..

theorem updCore_api_mc_usd (r : TokenRecord) (cp : String) (s : Snapshot) :
    (updCore r cp s).api_mc_usd = r.api_mc_usd := by
  unfold updCore
  exact writeCp_api_mc_usd ..

theorem updCore_ath_market_cap (r : TokenRecord) (cp : String) (s : Snapshot) :
    (updCore r cp s).ath_market_cap = r.ath_market_cap := by
  unfold updCore
  exact writeCp_ath_market_cap ..

theorem updCore_first_detected (r : TokenRecord) (cp : String) (s : Snapshot) :
    (updCore r cp s).first_detected_at = r.first_detected_at := by
  unfold updCore
  exact writeCp_first_detected ..

theorem updCore_address (r : TokenRecord) (cp : String) (s : Snapshot) :
    (updCore r cp s).contract_address = r.contract_address := by
  unfold updCore
  exact writeCp_address ..

theorem updCore_day (r : TokenRecord) (cp : String) (s : Snapshot) :
    (updCore r cp s).day_of_week = r.day_of_week := by
  unfold updCore
  exact writeCp_day ..

theorem applyD_excluded (r : TokenRecord) (c : String × Snapshot) :
    (applyD r c).excluded_from_analysis = r.excluded_from_analysis := by
  unfold applyD update_token_checkpoint
  cases CHECKPOINTS.lookup c.1 with
  | none => rfl
  | some d => exact updCore_excluded ..

theorem applyD_ath_market_cap (r : TokenRecord) (c : String × Snapshot) :
    (applyD r c).ath_market_cap = r.ath_market_cap := by
  unfold applyD update_token_checkpoint
  cases CHECKPOINTS.lookup c.1 with
  | none => rfl
  | some d => exact updCore_ath_market_cap ..

theorem runCalls_excluded (calls : List (String × Snapshot)) :
    ∀ r : TokenRecord,
      (runCalls r calls).excluded_from_analysis = r.excluded_from_analysis := by
  induction calls with
  | nil => intro r; rfl
  | cons c rest ih =>
      intro r
      show (runCalls (applyD r c) rest).excluded_from_analysis = _
      rw [ih (applyD r c), applyD_excluded]

/-! ### Monotonicity of the running summary -/

theorem prev_ath_le_best_ath (r : TokenRecord) (s : Snapshot) :
    prev_ath r ≤ best_ath r s :=
  le_max_left _ _

theorem prev_multiple_le_new (r : TokenRecord) (s : Snapshot) :
    prev_multiple r ≤ newTrueMultiple r s :=
  le_max_right _ _

theorem prev_multiple_updCore (r : TokenRecord) (cp : String) (s : Snapshot) :
    prev_multiple (updCore r cp s) = newTrueMultiple r s := by
  show optOr (some (newTrueMultiple r s)) 0 = _
  show qOr (newTrueMultiple r s) 0 = _
  exact qOr_zero_right _

/-- One recorder write can only raise the stored true multiple, whatever
the snapshot contains. -/
theorem multiple_step_mono (r : TokenRecord) (cp : String) (s : Snapshot) :
    prev_multiple r ≤ prev_multiple (updCore r cp s) := by
  rw [prev_multiple_updCore]
  exact prev_multiple_le_new r s

theorem prev_ath_updCore (r : TokenRecord) (cp : String) (s : Snapshot) :
    prev_ath (updCore r cp s) = qOr (qOr (best_ath r s) (ath_at_call r)) 0 := by
  unfold prev_ath
  rw [updCore_current_ath]
  show qOr (qOr (best_ath r s) (ath_at_call (updCore r cp s))) 0 = _
  unfold ath_at_call
  rw [updCore_ath_market_cap]

/-- One recorder write can only raise the stored best-observed ATH, as the
next call will read it, provided the baseline ATH-at-detection is not
negative (market data). -/
theorem best_step_mono (r : TokenRecord) (cp : String) (s : Snapshot)
    (h : 0 ≤ ath_at_call r) :
    prev_ath r ≤ prev_ath (updCore r cp s) := by
  rw [prev_ath_updCore]
  rw [qOr_zero_right]
  by_cases hb : best_ath r s = 0
  · rw [hb]
    show prev_ath r ≤ qOr 0 (ath_at_call r)
    have h1 : prev_ath r ≤ best_ath r s := prev_ath_le_best_ath r s
    rw [hb] at h1
    calc prev_ath r ≤ 0 := h1
      _ ≤ ath_at_call r := h
      _ = qOr 0 (ath_at_call r) := by unfold qOr; rw [if_pos rfl]
  · have : qOr (best_ath r s) (ath_at_call r) = best_ath r s := by
      unfold qOr; rw [if_neg hb]
    rw [this]
    exact prev_ath_le_best_ath r s

theorem multiple_applyD_mono (r : TokenRecord) (c : String × Snapshot) :
    prev_multiple r ≤ prev_multiple (applyD r c) := by
  unfold applyD update_token_checkpoint
  cases CHECKPOINTS.lookup c.1 with
  | none => exact le_refl _
  | some d => exact multiple_step_mono ..

theorem best_applyD_mono (r : TokenRecord) (c : String × Snapshot)
    (h : 0 ≤ ath_at_call r) :
    prev_ath r ≤ prev_ath (applyD r c) := by
  unfold applyD update_token_checkpoint
  cases CHECKPOINTS.lookup c.1 with
  | none => exact le_refl _
  | some d => exact best_step_mono _ _ _ h

theorem ath_at_call_applyD (r : TokenRecord) (c : String × Snapshot) :
    ath_at_call (applyD r c) = ath_at_call r := by
  unfold ath_at_call
  rw [applyD_ath_market_cap]

theorem runCalls_mono (calls : List (String × Snapshot)) :
    ∀ r : TokenRecord, 0 ≤ ath_at_call r →
      prev_multiple r ≤ prev_multiple (runCalls r calls) ∧
      prev_ath r ≤ prev_ath (runCalls r calls) := by
  induction calls with
  | nil => intro r h; exact ⟨le_refl _, le_refl _⟩
  | cons c rest ih =>
      intro r h
      have hstep := ih (applyD r c) (by rw [ath_at_call_applyD]; exact h)
      constructor
      · exact le_trans (multiple_applyD_mono r c) hstep.1
      · exact le_trans (best_applyD_mono r c h) hstep.2

/-! ### Threshold-flag monotonicity -/

/-- OR-accumulation of one threshold flag: a truthy stored flag forces the
newly written flag to `1`. -/
theorem flag_or_mono (o : Option ℤ) (P : Prop) [Decidable P] :
    truthyInt o ≤ truthyInt (some (if truthyInt o = true ∨ P then 1 else 0)) := by
  cases h : truthyInt o with
  | false => exact Bool.false_le _
  | true =>
      rw [if_pos (Or.inl rfl)]
      decide

theorem flags_applyD_mono (r : TokenRecord) (c : String × Snapshot) :
    truthyInt r.reached_x2 ≤ truthyInt (applyD r c).reached_x2 ∧
    truthyInt r.reached_x3 ≤ truthyInt (applyD r c).reached_x3 ∧
    truthyInt r.reached_x5 ≤ truthyInt (applyD r c).reached_x5 ∧
    truthyInt r.reached_x10 ≤ truthyInt (applyD r c).reached_x10 ∧
    truthyInt r.reached_x20 ≤ truthyInt (applyD r c).reached_x20 ∧
    truthyInt r.reached_x50 ≤ truthyInt (applyD r c).reached_x50 ∧
    truthyInt r.reached_x100 ≤ truthyInt (applyD r c).reached_x100 := by
  unfold applyD update_token_checkpoint
  cases CHECKPOINTS.lookup c.1 with
  | none =>
      exact ⟨le_refl _, le_refl _, le_refl _, le_refl _, le_refl _, le_refl _, le_refl _⟩
  | some d =>
      exact ⟨flag_or_mono r.reached_x2 _, flag_or_mono r.reached_x3 _,
             flag_or_mono r.reached_x5 _, flag_or_mono r.reached_x10 _,
             flag_or_mono r.reached_x20 _, flag_or_mono r.reached_x50 _,
             flag_or_mono r.reached_x100 _⟩

theorem flags_runCalls_mono (calls : List (String × Snapshot)) :
    ∀ r : TokenRecord,
      truthyInt r.reached_x2 ≤ truthyInt (runCalls r calls).reached_x2 ∧
      truthyInt r.reached_x3 ≤ truthyInt (runCalls r calls).reached_x3 ∧
      truthyInt r.reached_x5 ≤ truthyInt (runCalls r calls).reached_x5 ∧
      truthyInt r.reached_x10 ≤ truthyInt (runCalls r calls).reached_x10 ∧
      truthyInt r.reached_x20 ≤ truthyInt (runCalls r calls).reached_x20 ∧
      truthyInt r.reached_x50 ≤ truthyInt (runCalls r calls).reached_x50 ∧
      truthyInt r.reached_x100 ≤ truthyInt (runCalls r calls).reached_x100 := by
  induction calls with
  | nil =>
      intro r
      exact ⟨le_refl _, le_refl _, le_refl _, le_refl _, le_refl _, le_refl _, le_refl _⟩
  | cons c rest ih =>
      intro r
      have h1 := flags_applyD_mono r c
      have h2 := ih (applyD r c)
      exact ⟨le_trans h1.1 h2.1, le_trans h1.2.1 h2.2.1, le_trans h1.2.2.1 h2.2.2.1,
             le_trans h1.2.2.2.1 h2.2.2.2.1, le_trans h1.2.2.2.2.1 h2.2.2.2.2.1,
             le_trans h1.2.2.2.2.2.1 h2.2.2.2.2.2.1, le_trans h1.2.2.2.2.2.2 h2.2.2.2.2.2.2⟩

/-- A checkpoint name with a successful `CHECKPOINTS` lookup is one of the
seven fixed names. -/
theorem checkpoint_name_cases {cp : String} {d : ℤ}
    (h : CHECKPOINTS.lookup cp = some d) :
    cp = "5min" ∨ cp = "20min" ∨ cp = "1h" ∨ cp = "3h" ∨ cp = "6h" ∨
    cp = "24h" ∨ cp = "7d" := by
  by_cases h1 : cp = "5min"
  · exact Or.inl h1
  by_cases h2 : cp = "20min"
  · exact Or.inr (Or.inl h2)
  by_cases h3 : cp = "1h"
  · exact Or.inr (Or.inr (Or.inl h3))
  by_cases h4 : cp = "3h"
  · exact Or.inr (Or.inr (Or.inr (Or.inl h4)))
  by_cases h5 : cp = "6h"
  · exact Or.inr (Or.inr (Or.inr (Or.inr (Or.inl h5))))
  by_cases h6 : cp = "24h"
  · exact Or.inr (Or.inr (Or.inr (Or.inr (Or.inr (Or.inl h6)))))
  by_cases h7 : cp = "7d"
  · exact Or.inr (Or.inr (Or.inr (Or.inr (Or.inr (Or.inr h7)))))
  exfalso
  have e1 : (cp == "5min") = false := beq_eq_false_iff_ne.mpr h1
  have e2 : (cp == "20min") = false := beq_eq_false_iff_ne.mpr h2
  have e3 : (cp == "1h") = false := beq_eq_false_iff_ne.mpr h3
  have e4 : (cp == "3h") = false := beq_eq_false_iff_ne.mpr h4
  have e5 : (cp == "6h") = false := beq_eq_false_iff_ne.mpr h5
  have e6 : (cp == "24h") = false := beq_eq_false_iff_ne.mpr h6
  have e7 : (cp == "7d") = false := beq_eq_false_iff_ne.mpr h7
  simp [CHECKPOINTS, List.lookup, e1, e2, e3, e4, e5, e6, e7] at h

/-! ### Concrete fixtures for witnesses -/

/-- A snapshot with positive readings. -/
def snapA : Snapshot :=
  { current_mc := 5000, current_ath := some 20000, mc_at_call := some 10000,
    holders := some 40, liquidity_usd := some 900, price_usd := some 1,
    txns_buys := some 3, txns_sells := some 2 }

/-- A later, strictly lower (all-zero) snapshot. -/
def snapZero : Snapshot :=
  { current_mc := 0, current_ath := some 0, mc_at_call := some 10000,
    holders := none, liquidity_usd := none, price_usd := none,
    txns_buys := none, txns_sells := none }

/-- A record fresh from creation with a known baseline. -/
def recA : TokenRecord :=
  { sampleRecord with api_mc_usd := some 10000, ath_market_cap := some 12000 }

theorem getD_eq_optOr (x : Option ℚ) : x.getD 0 = optOr x 0 := by
  cases x with
  | none => rfl
  | some v => exact (qOr_zero_right v).symm

/-- The raw stored best (0 when NULL) is bounded by the defaulted value the
next call reads, when the baseline ATH-at-detection is not negative. -/
theorem getD_le_prev_ath (r : TokenRecord) (h : 0 ≤ ath_at_call r) :
    (r.current_ath_usd).getD 0 ≤ prev_ath r := by
  unfold prev_ath
  cases hc : r.current_ath_usd with
  | none =>
      show (0 : ℚ) ≤ qOr (ath_at_call r) 0
      rw [qOr_zero_right]
      exact h
  | some v =>
      show v ≤ qOr (qOr v (ath_at_call r)) 0
      rw [qOr_zero_right]
      unfold qOr
      split_ifs with hv
      · rw [hv]
        exact h
      · exact le_refl v

theorem best_applyD_mono_raw (r : TokenRecord) (c : String × Snapshot)
    (h : 0 ≤ ath_at_call r) :
    (r.current_ath_usd).getD 0 ≤ ((applyD r c).current_ath_usd).getD 0 := by
  unfold applyD update_token_checkpoint
  cases CHECKPOINTS.lookup c.1 with
  | none => exact le_refl _
  | some d =>
      show _ ≤ ((updCore r c.1 c.2).current_ath_usd).getD 0
      rw [updCore_current_ath]
      exact le_trans (getD_le_prev_ath r h) (prev_ath_le_best_ath r c.2)

theorem multiple_applyD_mono_raw (r : TokenRecord) (c : String × Snapshot) :
    (r.true_multiple).getD 0 ≤ ((applyD r c).true_multiple).getD 0 := by
  rw [getD_eq_optOr, getD_eq_optOr]
  exact multiple_applyD_mono r c

theorem runCalls_mono_raw (calls : List (String × Snapshot)) :
    ∀ r : TokenRecord, 0 ≤ ath_at_call r →
      (r.true_multiple).getD 0 ≤ ((runCalls r calls).true_multiple).getD 0 ∧
      (r.current_ath_usd).getD 0 ≤ ((runCalls r calls).current_ath_usd).getD 0 := by
  induction calls with
  | nil => intro r h; exact ⟨le_refl _, le_refl _⟩
  | cons c rest ih =>
      intro r h
      have hstep := ih (applyD r c) (by rw [ath_at_call_applyD]; exact h)
      exact ⟨le_trans (multiple_applyD_mono_raw r c) hstep.1,
             le_trans (best_applyD_mono_raw r c h) hstep.2⟩

/-! ### C1 -/

/-- C1: for every record and every sequence of recorder calls
(`update_token_checkpoint`) on it, the stored true-multiple and the stored
best-observed ATH (0 when NULL) are non-decreasing from any call onward,
even when the snapshot values passed to a later call are lower; the only
assumption is that the baseline ATH-at-detection is not negative. -/
theorem c1_monotone_multiple_best (r : TokenRecord) (c : String × Snapshot)
    (calls : List (String × Snapshot)) (h : 0 ≤ ath_at_call r) :
    ((applyD r c).true_multiple).getD 0 ≤
      ((runCalls (applyD r c) calls).true_multiple).getD 0 ∧
    ((applyD r c).current_ath_usd).getD 0 ≤
      ((runCalls (applyD r c) calls).current_ath_usd).getD 0 :=
  runCalls_mono_raw calls (applyD r c) (by rw [ath_at_call_applyD]; exact h)

/-- Witness for C1 at a concrete record and a later all-zero snapshot. -/
theorem c1_monotone_multiple_best_witness :
    0 ≤ ath_at_call recA ∧
    (((applyD recA ("5min", snapA)).true_multiple).getD 0 ≤
       ((runCalls (applyD recA ("5min", snapA)) [("20min", snapZero)]).true_multiple).getD 0 ∧
     ((applyD recA ("5min", snapA)).current_ath_usd).getD 0 ≤
       ((runCalls (applyD recA ("5min", snapA)) [("20min", snapZero)]).current_ath_usd).getD 0) :=
  ⟨by decide, c1_monotone_multiple_best recA ("5min", snapA) [("20min", snapZero)] (by decide)⟩

/-! ### C2 -/

/-- C2: each recorder write sets every `reached_xN` flag to
(old flag truthy OR new multiple ≥ N), and consequently a flag that is
truthy stays truthy through any later sequence of recorder calls. -/
theorem c2_threshold_flags (r : TokenRecord) (cp : String) (s : Snapshot)
    (calls : List (String × Snapshot)) :
    (updCore r cp s).reached_x2 =
      some (if truthyInt r.reached_x2 = true ∨ 2 ≤ newTrueMultiple r s then 1 else 0) ∧
    (updCore r cp s).reached_x3 =
      some (if truthyInt r.reached_x3 = true ∨ 3 ≤ newTrueMultiple r s then 1 else 0) ∧
    (updCore r cp s).reached_x5 =
      some (if truthyInt r.reached_x5 = true ∨ 5 ≤ newTrueMultiple r s then 1 else 0) ∧
    (updCore r cp s).reached_x10 =
      some (if truthyInt r.reached_x10 = true ∨ 10 ≤ newTrueMultiple r s then 1 else 0) ∧
    (updCore r cp s).reached_x20 =
      some (if truthyInt r.reached_x20 = true ∨ 20 ≤ newTrueMultiple r s then 1 else 0) ∧
    (updCore r cp s).reached_x50 =
      some (if truthyInt r.reached_x50 = true ∨ 50 ≤ newTrueMultiple r s then 1 else 0) ∧
    (updCore r cp s).reached_x100 =
      some (if truthyInt r.reached_x100 = true ∨ 100 ≤ newTrueMultiple r s then 1 else 0) ∧
    truthyInt r.reached_x2 ≤ truthyInt (runCalls r calls).reached_x2 ∧
    truthyInt r.reached_x3 ≤ truthyInt (runCalls r calls).reached_x3 ∧
    truthyInt r.reached_x5 ≤ truthyInt (runCalls r calls).reached_x5 ∧
    truthyInt r.reached_x10 ≤ truthyInt (runCalls r calls).reached_x10 ∧
    truthyInt r.reached_x20 ≤ truthyInt (runCalls r calls).reached_x20 ∧
    truthyInt r.reached_x50 ≤ truthyInt (runCalls r calls).reached_x50 ∧
    truthyInt r.reached_x100 ≤ truthyInt (runCalls r calls).reached_x100 := by
  have hm := flags_runCalls_mono calls r
  exact ⟨rfl, rfl, rfl, rfl, rfl, rfl, rfl, hm.1, hm.2.1, hm.2.2.1, hm.2.2.2.1,
         hm.2.2.2.2.1, hm.2.2.2.2.2.1, hm.2.2.2.2.2.2⟩

/-! ### C9 -/

/-- C9: no recorder write changes the exclusion flag, the stored ratio
column, or any baseline field set at creation; across any sequence of
recorder calls the exclusion flag keeps its creation value. -/
theorem c9_creation_fields_immutable (r : TokenRecord) (cp : String) (s : Snapshot)
    (calls : List (String × Snapshot)) :
    (updCore r cp s).excluded_from_analysis = r.excluded_from_analysis ∧
    (updCore r cp s).ath_ratio_col = r.ath_ratio_col ∧
    (updCore r cp s).api_mc_usd = r.api_mc_usd ∧
    (updCore r cp s).ath_market_cap = r.ath_market_cap ∧
    (updCore r cp s).first_detected_at = r.first_detected_at ∧
    (updCore r cp s).contract_address = r.contract_address ∧
    (updCore r cp s).day_of_week = r.day_of_week ∧
    (runCalls r calls).excluded_from_analysis = r.excluded_from_analysis :=
  ⟨updCore_excluded .., updCore_ratio .., updCore_api_mc_usd ..,
   updCore_ath_market_cap .., updCore_first_detected .., updCore_address ..,
   updCore_day .., runCalls_excluded calls r⟩

/-! ### C10 -/

set_option maxHeartbeats 1000000 in
/-- C10: scheduler selection and recorder updates are independent of the
exclusion flag: due-ness is unchanged by any value of the flag, and a
recorder call on a record with a different flag value produces the same
row apart from that flag. -/
theorem c10_exclusion_only_restricts_stats (r : TokenRecord) (e now d : ℤ)
    (cp : String) (s : Snapshot) :
    isDue now cp d { r with excluded_from_analysis := e } = isDue now cp d r ∧
    applyD { r with excluded_from_analysis := e } (cp, s) =
      { applyD r (cp, s) with excluded_from_analysis := e } := by
  constructor
  · unfold isDue
    have hcp : cpDataOf { r with excluded_from_analysis := e } cp = cpDataOf r cp := by
      unfold cpDataOf
      split_ifs <;> rfl
    rw [hcp]
  · unfold applyD update_token_checkpoint
    cases hl : CHECKPOINTS.lookup cp with
    | none => rfl
    | some d' =>
        show updCore { r with excluded_from_analysis := e } cp s =
          { updCore r cp s with excluded_from_analysis := e }
        rcases checkpoint_name_cases hl with h|h|h|h|h|h|h <;> subst h <;> rfl

/-! ### C5 -/

/-- C5: the exclusion classifier run at record creation excludes a record
iff ATH-at-detection is unknown or not positive, or the ratio
(baseline market cap over ATH-at-detection) is below one half; the two
worked examples of the spec are checked concretely. -/
theorem c5_exclusion_rule (api ath : Option ℚ) :
    ((insert_exclusion api ath).1 = 1 ↔
      optOr ath 0 ≤ 0 ∨ optOr api 0 / optOr ath 0 < 1/2) ∧
    (insert_exclusion (some 10000) (some 9000)).1 = 0 ∧
    (insert_exclusion (some 10000) (some 30000)).1 = 1 := by
  refine ⟨?_, by norm_num [insert_exclusion, optOr, qOr], by norm_num [insert_exclusion, optOr, qOr]⟩
  simp only [insert_exclusion]
  split_ifs with hpos hr
  · exact ⟨fun _ => Or.inr hr, fun _ => rfl⟩
  · constructor
    · intro hzero
      have h0 : (0 : ℤ) = 1 := hzero
      omega
    · intro hor
      rcases hor with hle | hlt
      · exact absurd hpos (not_lt.mpr hle)
      · exact absurd hlt hr
  · exact ⟨fun _ => Or.inl (le_of_not_lt hpos), fun _ => rfl⟩

/-! ### C7 -/

/-- A recorder write for a valid checkpoint name leaves that checkpoint's
market-cap column non-NULL. -/
theorem updCore_mc_written {cp : String} {d : ℤ}
    (h : CHECKPOINTS.lookup cp = some d) (r : TokenRecord) (s : Snapshot) :
    (cpDataOf (updCore r cp s) cp).mc = some s.current_mc := by
  rcases checkpoint_name_cases h with h'|h'|h'|h'|h'|h'|h' <;> subst h' <;> rfl

/-- C7: once a recorder call has written a record's data for a checkpoint,
even from an entirely empty snapshot, that record never appears in any
later scheduler selection for the same checkpoint. -/
theorem c7_checkpoint_consumed (r r' : TokenRecord) (cp : String) (s : Snapshot)
    (tbl : List TokenRecord) (now : ℤ) (res : List TokenRecord)
    (hu : update_token_checkpoint r cp s = .ok r')
    (hs : get_tokens_for_checkpoint tbl now cp = .ok res) :
    r' ∉ res := by
  unfold update_token_checkpoint at hu
  unfold get_tokens_for_checkpoint at hs
  cases hl : CHECKPOINTS.lookup cp with
  | none =>
      rw [hl] at hu
      exact Except.noConfusion hu
  | some d =>
      rw [hl] at hu hs
      injection hu with h1
      injection hs with h2
      subst h1 h2
      intro hmem
      have h2 := (List.mem_filter.mp hmem).2
      unfold isDue at h2
      rw [Bool.and_eq_true] at h2
      have h3 := of_decide_eq_true h2.1
      rw [updCore_mc_written hl] at h3
      exact Option.noConfusion h3

/-- Witness for C7: the updated row is absent from the next selection. The
snapshot written is the entirely-empty one. -/
theorem c7_checkpoint_consumed_witness :
    update_token_checkpoint recA "5min" snapZero = .ok (updCore recA "5min" snapZero) ∧
    get_tokens_for_checkpoint [recA] 1000 "5min" = .ok [recA] ∧
    updCore recA "5min" snapZero ∉ [recA] :=
  ⟨rfl, rfl, c7_checkpoint_consumed recA _ "5min" snapZero [recA] 1000 [recA] rfl rfl⟩

/-! ### C8 -/

/-- The fetch result for a token that no longer answers: both headline
numbers degrade to zero. -/
def fetchEmpty : FetchResult :=
  { current_mc := 0, current_ath := 0, holders := none, liquidity_usd := none,
    price_usd := none, txns_buys := none, txns_sells := none }

/-- C8: a checkpoint pass skips a record whose baseline market cap is
missing or not positive before any recorder write: the row is unchanged,
so its checkpoint column stays NULL and its due-ness is unaffected. -/
theorem c8_skip_missing_baseline (r : TokenRecord) (cp : String) (data : FetchResult)
    (now d : ℤ) (h : optOr r.api_mc_usd 0 ≤ 0) :
    check_token r cp data = .ok none ∧
    afterCheck r cp data = r ∧
    cpDataOf (afterCheck r cp data) cp = cpDataOf r cp ∧
    isDue now cp d (afterCheck r cp data) = isDue now cp d r := by
  have hc : check_token r cp data = .ok none := by
    simp only [check_token]
    rw [if_pos (Or.inr h)]
  have ha : afterCheck r cp data = r := by
    unfold afterCheck
    rw [hc]
  exact ⟨hc, ha, by rw [ha], by rw [ha]⟩

/-- Witness for C8 at a record with a NULL baseline market cap. -/
theorem c8_skip_missing_baseline_witness :
    optOr sampleRecord.api_mc_usd 0 ≤ 0 ∧
    (check_token sampleRecord "7d" fetchEmpty = .ok none ∧
     afterCheck sampleRecord "7d" fetchEmpty = sampleRecord ∧
     cpDataOf (afterCheck sampleRecord "7d" fetchEmpty) "7d" = cpDataOf sampleRecord "7d" ∧
     isDue 1000000 "7d" 604800 (afterCheck sampleRecord "7d" fetchEmpty) =
       isDue 1000000 "7d" 604800 sampleRecord) :=
  ⟨by decide, c8_skip_missing_baseline sampleRecord "7d" fetchEmpty 1000000 604800 (by decide)⟩

/-! ### C6 -/

/-- A record whose age at `now = 1000` is exactly the 5-minute delay. -/
def recBoundary : TokenRecord :=
  { sampleRecord with first_detected_at := 700 }

/-- Counterexample to C6 as stated: a record whose age is exactly the
checkpoint's minimum-age duration (300 s for "5min") and whose checkpoint
column is NULL is nonetheless not selected, because the query uses a
strict inequality (`first_detected_at < now - delay`). -/
theorem c6_scheduler_cex :
    CHECKPOINTS.lookup "5min" = some 300 ∧
    (cpDataOf recBoundary "5min").mc = none ∧
    1000 - recBoundary.first_detected_at = 300 ∧
    get_tokens_for_checkpoint [recBoundary] 1000 "5min" = .ok [] :=
  ⟨rfl, rfl, rfl, rfl⟩

/-- C6 (amended): for a valid checkpoint name the scheduler returns exactly
the records whose checkpoint column is unset and whose age is strictly
greater than the minimum-age duration (no upper bound on how overdue);
any other name fails with the invalid-checkpoint error. -/
theorem c6_scheduler_selection (tbl : List TokenRecord) (now d : ℤ)
    (cp bad : String) (r : TokenRecord)
    (hd : CHECKPOINTS.lookup cp = some d)
    (hbad : CHECKPOINTS.lookup bad = none) :
    get_tokens_for_checkpoint tbl now cp = .ok (tbl.filter (isDue now cp d)) ∧
    (r ∈ tbl.filter (isDue now cp d) ↔
      r ∈ tbl ∧ (cpDataOf r cp).mc = none ∧ r.first_detected_at < now - d) ∧
    get_tokens_for_checkpoint tbl now bad = .error (.invalidCheckpoint bad) := by
  refine ⟨?_, ?_, ?_⟩
  · unfold get_tokens_for_checkpoint
    rw [hd]
  · rw [List.mem_filter]
    unfold isDue
    simp [and_assoc]
  · unfold get_tokens_for_checkpoint
    rw [hbad]

/-- Witness for C6 at a concrete table, a valid and an invalid name. -/
theorem c6_scheduler_selection_witness :
    CHECKPOINTS.lookup "5min" = some 300 ∧
    CHECKPOINTS.lookup "2h" = none ∧
    (get_tokens_for_checkpoint [recA] 1000 "5min" = .ok ([recA].filter (isDue 1000 "5min" 300)) ∧
     (recA ∈ [recA].filter (isDue 1000 "5min" 300) ↔
       recA ∈ [recA] ∧ (cpDataOf recA "5min").mc = none ∧ recA.first_detected_at < 1000 - 300) ∧
     get_tokens_for_checkpoint [recA] 1000 "2h" = .error (.invalidCheckpoint "2h")) :=
  ⟨rfl, rfl, c6_scheduler_selection [recA] 1000 300 "5min" "2h" recA rfl rfl⟩

/-! ### C4 -/

/-- A record that is included (flag 0) and flagged 2x, but whose terminal
7-day checkpoint is still NULL. -/
def recNoTerminal : TokenRecord :=
  { sampleRecord with reached_x2 := some 1 }

/-- Counterexample to C4 as stated: the global per-threshold hit count
counts a record whose terminal 7-day checkpoint is NULL, so not every
aggregator query restricts to records with a non-null 7-day checkpoint. -/
theorem c4_global_stats_cex :
    recNoTerminal.cp_7d.mc = none ∧
    recNoTerminal.excluded_from_analysis = 0 ∧
    (get_global_stats [recNoTerminal]).total_x2 = 1 ∧
    List.countP (fun r =>
      r.cp_7d.mc.isSome && decide (r.excluded_from_analysis = 0) &&
      decide (r.reached_x2 = some 1)) [recNoTerminal] = 0 :=
  ⟨rfl, rfl, rfl, rfl⟩

/-- C4 (amended): the grouped breakdown queries (day-of-week shown here)
count only records with a non-null 7-day checkpoint and a false exclusion
flag, and a group's win rate is the 2x-hit count divided by the group
size (scaled to percent); the global per-threshold hit counts, however,
filter only on the exclusion flag and ignore checkpoint completion. -/
theorem c4_aggregator_filters (tbl : List TokenRecord) (d : ℤ)
    (hday : 0 < dayTotal tbl d) :
    (get_global_stats tbl).total_x2 =
      (tbl.filter (fun r => decide (r.excluded_from_analysis = 0))).countP
        (fun r => decide (r.reached_x2 = some 1)) ∧
    (get_global_stats tbl).total_x5 =
      (tbl.filter (fun r => decide (r.excluded_from_analysis = 0))).countP
        (fun r => decide (r.reached_x5 = some 1)) ∧
    (get_global_stats tbl).total_x10 =
      (tbl.filter (fun r => decide (r.excluded_from_analysis = 0))).countP
        (fun r => decide (r.reached_x10 = some 1)) ∧
    dayTotal tbl d =
      (tbl.filter (fun r =>
        r.cp_7d.mc.isSome && decide (r.excluded_from_analysis = 0))).countP
        (fun r => decide (r.day_of_week = some d)) ∧
    dayX2 tbl d =
      (tbl.filter (fun r =>
        r.cp_7d.mc.isSome && decide (r.excluded_from_analysis = 0))).countP
        (fun r => decide (r.day_of_week = some d) && decide (r.reached_x2 = some 1)) ∧
    dayWinrate tbl d = (dayX2 tbl d : ℚ) / (dayTotal tbl d : ℚ) * 100 := by
  refine ⟨?_, ?_, ?_, ?_, ?_, ?_⟩
  · rw [List.countP_filter]; rfl
  · rw [List.countP_filter]; rfl
  · rw [List.countP_filter]; rfl
  · rw [List.countP_filter]
    apply List.countP_congr
    intro x _
    simp [Bool.and_comm, Bool.and_assoc, Bool.and_left_comm, and_comm, and_assoc, and_left_comm]
  · rw [List.countP_filter]
    apply List.countP_congr
    intro x _
    simp [Bool.and_comm, Bool.and_assoc, Bool.and_left_comm, and_comm, and_assoc, and_left_comm]
  · unfold dayWinrate
    rw [if_pos hday]

/-- A completed, included, 2x record on day 2 for the C4 witness. -/
def recDone : TokenRecord :=
  { sampleRecord with
    day_of_week := some 2
    cp_7d := { emptyCpData with mc := some 0 }
    reached_x2 := some 1 }

/-- Witness for C4 (amended) on a one-record table. -/
theorem c4_aggregator_filters_witness :
    0 < dayTotal [recDone] 2 ∧
    ((get_global_stats [recDone]).total_x2 =
      ([recDone].filter (fun r => decide (r.excluded_from_analysis = 0))).countP
        (fun r => decide (r.reached_x2 = some 1)) ∧
    (get_global_stats [recDone]).total_x5 =
      ([recDone].filter (fun r => decide (r.excluded_from_analysis = 0))).countP
        (fun r => decide (r.reached_x5 = some 1)) ∧
    (get_global_stats [recDone]).total_x10 =
      ([recDone].filter (fun r => decide (r.excluded_from_analysis = 0))).countP
        (fun r => decide (r.reached_x10 = some 1)) ∧
    dayTotal [recDone] 2 =
      ([recDone].filter (fun r =>
        r.cp_7d.mc.isSome && decide (r.excluded_from_analysis = 0))).countP
        (fun r => decide (r.day_of_week = some 2)) ∧
    dayX2 [recDone] 2 =
      ([recDone].filter (fun r =>
        r.cp_7d.mc.isSome && decide (r.excluded_from_analysis = 0))).countP
        (fun r => decide (r.day_of_week = some 2) && decide (r.reached_x2 = some 1)) ∧
    dayWinrate [recDone] 2 = (dayX2 [recDone] 2 : ℚ) / (dayTotal [recDone] 2 : ℚ) * 100) :=
  ⟨by decide, c4_aggregator_filters [recDone] 2 (by decide)⟩

/-! ### C3 -/

/-- Spec-side reading of the stored best-observed ATH (claim wording):
the stored value, defaulting to the baseline ATH-at-detection exactly when
no checkpoint has been recorded. For comparison with the code's
`prev_ath`, which also falls back when the stored value is `0.0`. -/
def specPrevBest (r : TokenRecord) : ℚ :=
  (r.current_ath_usd).getD (ath_at_call r)

/-- Spec-side `candidate_best` of the claim. -/
def specCandidateBest (r : TokenRecord) (s : Snapshot) : ℚ :=
  max (specPrevBest r) (max (optOr s.current_ath 0) (qOr s.current_mc 0))

/-- Spec-side baseline market cap of a record (0 when unknown). -/
def specBaseline (r : TokenRecord) : ℚ := optOr r.api_mc_usd 0

/-- Spec-side `candidate_multiple` of the claim: best over baseline,
zero when the baseline is unknown or not positive. -/
def specCandidateMultiple (r : TokenRecord) (s : Snapshot) : ℚ :=
  if 0 < specBaseline r then specCandidateBest r s / specBaseline r else 0

/-- On records whose stored best can only be `0.0` when the baseline
ATH-at-detection is also 0 (every record the engine produces), the code's
defaulted stored best agrees with the spec's reading. -/
theorem prev_ath_eq_spec (r : TokenRecord)
    (h : r.current_ath_usd = some 0 → ath_at_call r = 0) :
    prev_ath r = specPrevBest r := by
  unfold prev_ath specPrevBest
  cases hc : r.current_ath_usd with
  | none =>
      show qOr (ath_at_call r) 0 = ath_at_call r
      exact qOr_zero_right _
  | some v =>
      show qOr (qOr v (ath_at_call r)) 0 = v
      rw [qOr_zero_right]
      unfold qOr
      split_ifs with hv
      · subst hv
        exact h hc
      · rfl

/-- When `mc_at_call` is passed the way `check_token` passes it (absent,
or the record's own baseline), the code's `initial_mc` is the record's
baseline market cap. -/
theorem initial_mc_eq_spec (r : TokenRecord) (s : Snapshot)
    (hmc : s.mc_at_call = none ∨ s.mc_at_call = r.api_mc_usd) :
    initial_mc r s = specBaseline r := by
  unfold initial_mc specBaseline
  rcases hmc with h | h
  · rw [h]
    rfl
  · rw [h]
    cases ha : r.api_mc_usd with
    | none => rfl
    | some m =>
        show qOr m (qOr m 0) = qOr m 0
        unfold qOr
        split_ifs <;> rfl

theorem best_ath_eq_spec (r : TokenRecord) (s : Snapshot)
    (h : r.current_ath_usd = some 0 → ath_at_call r = 0) :
    best_ath r s = specCandidateBest r s := by
  unfold best_ath specCandidateBest
  rw [prev_ath_eq_spec r h]

/-- C3: a recorder call stores max(stored best — defaulted —, snapshot ATH
or 0, snapshot market cap or 0) as the new best-observed ATH and
max(stored multiple, candidate best over baseline, 0 when the baseline is
unknown or not positive) as the new true multiple; and on a record whose
summary is already recorded, an entirely empty snapshot changes neither
stored value. Hypotheses h01/h00/hcons/hb0 are consistency facts holding
of every record the engine itself wrote; hmc1/hmc say `mc_at_call` is
passed the way the checkpoint pass passes it. -/
theorem c3_recorder_formulas (r1 r : TokenRecord) (cp1 cp : String)
    (s1 s : Snapshot) (bv mv : ℚ)
    (h01 : r1.current_ath_usd = some 0 → ath_at_call r1 = 0)
    (hmc1 : s1.mc_at_call = none ∨ s1.mc_at_call = r1.api_mc_usd)
    (hb : r.current_ath_usd = some bv)
    (hm : r.true_multiple = some mv)
    (hb0 : 0 ≤ bv)
    (h00 : bv = 0 → ath_at_call r = 0)
    (hmc : s.mc_at_call = none ∨ s.mc_at_call = r.api_mc_usd)
    (hcons : (if 0 < specBaseline r then bv / specBaseline r else 0) ≤ mv)
    (hmc0 : s.current_mc = 0)
    (hath0 : s.current_ath = none ∨ s.current_ath = some 0) :
    (updCore r1 cp1 s1).current_ath_usd = some (specCandidateBest r1 s1) ∧
    (updCore r1 cp1 s1).true_multiple =
      some (max (specCandidateMultiple r1 s1) (prev_multiple r1)) ∧
    (updCore r cp s).current_ath_usd = r.current_ath_usd ∧
    (updCore r cp s).true_multiple = r.true_multiple := by
  have hb' : r.current_ath_usd = some 0 → ath_at_call r = 0 := by
    intro hzero
    rw [hb] at hzero
    exact h00 (Option.some.inj hzero)
  have hbest : best_ath r s = bv := by
    rw [best_ath_eq_spec r s hb']
    unfold specCandidateBest
    have h1 : specPrevBest r = bv := by
      unfold specPrevBest
      rw [hb]
      rfl
    have h2 : optOr s.current_ath 0 = 0 := by
      rcases hath0 with h | h <;> rw [h] <;> rfl
    have h3 : qOr s.current_mc 0 = 0 := by
      rw [hmc0]
      rfl
    rw [h1, h2, h3, max_self]
    exact max_eq_left hb0
  refine ⟨?_, ?_, ?_, ?_⟩
  · rw [updCore_current_ath, best_ath_eq_spec r1 s1 h01]
  · rw [updCore_true_multiple]
    unfold newTrueMultiple specCandidateMultiple
    rw [initial_mc_eq_spec r1 s1 hmc1, best_ath_eq_spec r1 s1 h01]
  · rw [updCore_current_ath, hbest, hb]
  · rw [updCore_true_multiple, hm]
    unfold newTrueMultiple
    rw [initial_mc_eq_spec r s hmc, hbest]
    have hpm : prev_multiple r = mv := by
      unfold prev_multiple
      rw [hm]
      exact qOr_zero_right _
    rw [hpm, max_eq_right hcons]

/-- A record mid-lifecycle: summary recorded at 5x on a 10000 baseline. -/
def recB : TokenRecord :=
  { sampleRecord with
    api_mc_usd := some 10000
    ath_market_cap := some 12000
    current_ath_usd := some 50000
    true_multiple := some 5 }

/-- Witness for C3: a first call on a fresh record and an empty-snapshot
call on a recorded one. -/
theorem c3_recorder_formulas_witness :
    recB.current_ath_usd = some 50000 ∧
    recB.true_multiple = some 5 ∧
    (0 : ℚ) ≤ 50000 ∧
    (if 0 < specBaseline recB then 50000 / specBaseline recB else 0) ≤ (5 : ℚ) ∧
    snapZero.current_mc = 0 ∧
    ((updCore recA "5min" snapA).current_ath_usd = some (specCandidateBest recA snapA) ∧
     (updCore recA "5min" snapA).true_multiple =
       some (max (specCandidateMultiple recA snapA) (prev_multiple recA)) ∧
     (updCore recB "7d" snapZero).current_ath_usd = recB.current_ath_usd ∧
     (updCore recB "7d" snapZero).true_multiple = recB.true_multiple) :=
  ⟨rfl, rfl, by norm_num, by norm_num [specBaseline, optOr, qOr, recB, sampleRecord], rfl,
   c3_recorder_formulas recA recB "5min" "7d" snapA snapZero 50000 5
     (by decide) (by decide) rfl rfl (by norm_num) (by decide) (by decide)
     (by norm_num [specBaseline, optOr, qOr, recB, sampleRecord]) rfl (by decide)⟩

end Snapshots
